import Mathlib

/-!
# Middleware_Biblioteca: the Usuario model and the Express handlers

A shallow embedding of `src/config/models/Usuario.js`, `database.js` and
`src/server.js`.

The repository code is declarative configuration and glue for three
libraries (Sequelize, bcryptjs, Express).  The parts written in the
repository (attribute declarations, validator arguments, hooks, instance
methods, handlers, registration order) are transcribed below.  The library
behaviour they rely on is either a parameter (`Env`: bcrypt, the e-mail
syntax check, the clock, the id chosen by the database) or a small
documented model (the order validate / hook / INSERT of `Model.create`,
`isLength` of validator.js, the key bcryptjs reads of a password, Express
trying layers in registration order).
-/

namespace Biblioteca

/-! ## JavaScript values and plain objects -/

/-- Scalar JavaScript values: what a JSON request body can put in a field
and what a Usuario attribute can hold.  Numbers are integer valued, dates
are carried as their ISO string. -/
inductive JVal where
  | undefined
  | null
  | bool (b : Bool)
  | num (n : Int)
  | str (s : String)
  deriving DecidableEq, Repr

/-- A plain object: its own enumerable properties in insertion order. -/
abbrev Obj := List (String × JVal)

/-- Property read `o[k]`: the first entry under `k`, `undefined` when absent. -/
def Obj.get (o : Obj) (k : String) : JVal :=
  match o.lookup k with
  | some v => v
  | none => JVal.undefined

/-- Property write `o[k] = v`: overwrite in place, or append a new key. -/
def Obj.set : Obj → String → JVal → Obj
  | [], k, v => [(k, v)]
  | (k0, v0) :: rest, k, v =>
    if k0 = k then (k0, v) :: rest else (k0, v0) :: Obj.set rest k v

/-- The keys of an object. -/
def Obj.keys (o : Obj) : List String := o.map Prod.fst

/-- Rest destructuring `const { [k]: _, ...rest } = o`: every own property
except `k`, in the same order. -/
def Obj.rest (o : Obj) (k : String) : Obj := o.filter (fun kv => kv.1 ≠ k)

/-- JavaScript truthiness, as used by `if (v)`. -/
def JVal.truthy : JVal → Bool
  | JVal.undefined => false
  | JVal.null => false
  | JVal.bool b => b
  | JVal.num n => n ≠ 0
  | JVal.str s => s ≠ ""

/-- The result of `typeof v`. -/
def JVal.typeOf : JVal → String
  | JVal.undefined => "undefined"
  | JVal.null => "object"
  | JVal.bool _ => "boolean"
  | JVal.num _ => "number"
  | JVal.str _ => "string"

/-- String conversion `String(v)`. -/
def JVal.toStr : JVal → String
  | JVal.undefined => "undefined"
  | JVal.null => "null"
  | JVal.bool true => "true"
  | JVal.bool false => "false"
  | JVal.num n => toString n
  | JVal.str s => s

/-- Whether `v === null || v === undefined`. -/
def JVal.isNullish : JVal → Bool
  | JVal.undefined => true
  | JVal.null => true
  | _ => false

/-! ## The environment: library behaviour taken as given -/

/-- What the code obtains from outside the repository.

* `hash p rounds salt` is the string `bcrypt.hash(p, rounds)` resolves to
  when bcrypt draws the random salt `salt`;
* `compare c h` is what `bcrypt.compare(c, h)` resolves to on two strings;
* `isEmail` is validator.js's e-mail syntax check;
* `now` is the current time (ISO string) and `newId` the AUTO_INCREMENT
  value the database assigns to the next inserted row. -/
structure Env where
  hash : String → Nat → String → String
  compare : String → String → Bool
  salt : String
  isEmail : String → Bool
  now : String
  newId : Int

/-- The call `bcrypt.hash(s, rounds)`: bcryptjs rejects with
`Illegal arguments: <typeof s>, number` unless `s` is a string. -/
def bcryptHash (E : Env) (s : JVal) (rounds : Nat) : Except String String :=
  match s with
  | JVal.str p => Except.ok (E.hash p rounds E.salt)
  | v => Except.error ("Illegal arguments: " ++ v.typeOf ++ ", number")

/-- The call `bcrypt.compare(s, hash)`: bcryptjs rejects unless both
arguments are strings. -/
def bcryptCompare (E : Env) (s h : JVal) : Except String Bool :=
  match s, h with
  | JVal.str c, JVal.str stored => Except.ok (E.compare c stored)
  | a, b => Except.error ("Illegal arguments: " ++ a.typeOf ++ ", " ++ b.typeOf)

/-- The UTF-8 bytes of a string. -/
def utf8 (p : String) : List UInt8 := p.data.flatMap String.utf8EncodeChar

/-- What bcrypt reads of a password.  bcryptjs appends a NUL byte to the
UTF-8 bytes of the password and fills the 18 key words, 72 bytes, by reading
those bytes cyclically from the start.  Two passwords are the same password
for bcrypt when they give the same 72 bytes. -/
def bcryptKey (p : String) : List UInt8 :=
  (List.range 72).map (fun i => (utf8 p ++ [0]).getD (i % (utf8 p ++ [0]).length) 0)

/-! ## The Usuario model (`src/config/models/Usuario.js`) -/

/-- The values of `DataTypes.ENUM('admin', 'bibliotecario', 'usuario')`. -/
def rolValues : List String := ["admin", "bibliotecario", "usuario"]

/-- The `defaultValue` declarations; a new record has no `id` yet. -/
def defaults : Obj :=
  [("id", JVal.null), ("rol", JVal.str "usuario"), ("activo", JVal.bool true)]

/-- The whitespace class of JavaScript regular expressions. -/
def isJsSpace (c : Char) : Bool :=
  c.toNat ∈ [0x09, 0x0A, 0x0B, 0x0C, 0x0D, 0x20, 0xA0, 0x1680, 0x2028, 0x2029,
    0x202F, 0x205F, 0x3000, 0xFEFF] || (0x2000 ≤ c.toNat && c.toNat ≤ 0x200A)

/-- Validator `notEmpty`: the string is not made of whitespace only. -/
def notEmpty (s : String) : Bool := !(s.data.all isJsSpace)

/-- The `length` of a JavaScript string: its UTF-16 code units, two for a
character outside the Basic Multilingual Plane. -/
def jsLength (s : String) : Nat :=
  (s.data.map (fun c => if c.toNat < 0x10000 then 1 else 2)).sum

/-- The matches of `/(\uFE0F|\uFE0E)/g`: the variation selectors. -/
def presentationSequences (s : String) : Nat :=
  s.data.countP (fun c => decide (c.toNat = 0xFE0F) || decide (c.toNat = 0xFE0E))

/-- The matches of `/[\uD800-\uDBFF][\uDC00-\uDFFF]/g`: one surrogate pair
for each character outside the Basic Multilingual Plane. -/
def surrogatePairs (s : String) : Nat :=
  s.data.countP (fun c => decide (0x10000 ≤ c.toNat))

/-- The function `isLength(str, min, max)` of validator.js:
`len = str.length - presentationSequences.length - surrogatePairs.length`,
accepted when `len >= min && len <= max`. -/
def isLength (str : String) (min max : Nat) : Bool :=
  let n := jsLength str - presentationSequences str - surrogatePairs str
  decide (n ≥ min) && decide (n ≤ max)

/-- Validator `len: { args: [min, max] }`: Sequelize hands it to
`isLength`. -/
def len (min max : Nat) (s : String) : Bool := isLength s min max

/-- One entry of a validation error. -/
structure ValidationErrorItem where
  type : String
  message : String
  path : String
  deriving DecidableEq, Repr

/-- The entry produced for `allowNull: false` on a missing value. -/
def notNullItem (path : String) : ValidationErrorItem :=
  ⟨"notNull Violation", "Usuario." ++ path ++ " cannot be null", path⟩

/-- The entry produced by a failed validator carrying the declared `msg`. -/
def validatorItem (path msg : String) : ValidationErrorItem :=
  ⟨"Validation error", msg, path⟩

/-- Run one declared validator on `String(value)`. -/
def check (ok : Bool) (path msg : String) : List ValidationErrorItem :=
  if ok then [] else [validatorItem path msg]

/-- Attribute `nombre`: `allowNull: false`, `notEmpty`, `len: [2, 100]`. -/
def validateNombre (v : JVal) : List ValidationErrorItem :=
  if v.isNullish then [notNullItem "nombre"]
  else check (notEmpty v.toStr) "nombre" "El nombre es requerido"
    ++ check (len 2 100 v.toStr) "nombre" "El nombre debe tener entre 2 y 100 caracteres"

/-- Attribute `email`: `allowNull: false`, `isEmail`. -/
def validateEmail (E : Env) (v : JVal) : List ValidationErrorItem :=
  if v.isNullish then [notNullItem "email"]
  else check (E.isEmail v.toStr) "email" "Debe ser un email válido"

/-- Attribute `password`: `allowNull: false`, `len: [6, 255]`. -/
def validatePassword (v : JVal) : List ValidationErrorItem :=
  if v.isNullish then [notNullItem "password"]
  else check (len 6 255 v.toStr) "password" "La contraseña debe tener al menos 6 caracteres"

/-- A model instance: its `dataValues` and the set of changed keys. -/
structure Usuario where
  dataValues : Obj
  changedKeys : List String
  deriving DecidableEq, Repr

/-- Attribute read `usuario.k`. -/
def Usuario.get (u : Usuario) (k : String) : JVal := u.dataValues.get k

/-- Attribute write `usuario.k = v`: the key is marked as changed when the
new value differs from the current one. -/
def Usuario.set (u : Usuario) (k : String) (v : JVal) : Usuario :=
  { dataValues := u.dataValues.set k v
    changedKeys :=
      if v ≠ u.dataValues.get k ∧ k ∉ u.changedKeys then u.changedKeys ++ [k]
      else u.changedKeys }

/-- The call `usuario.changed(k)`. -/
def Usuario.changed (u : Usuario) (k : String) : Bool := decide (k ∈ u.changedKeys)

/-- The instance validation run by `save`: every declared validator, in
attribute order.  `rol` and `activo` declare no validator. -/
def validate (E : Env) (u : Usuario) : List ValidationErrorItem :=
  validateNombre (u.get "nombre") ++ validateEmail E (u.get "email")
    ++ validatePassword (u.get "password")

/-- Hook `beforeCreate` (Usuario.js lines 48-52). -/
def beforeCreate (E : Env) (usuario : Usuario) : Except String Usuario :=
  if (usuario.get "password").truthy then
    match bcryptHash E (usuario.get "password") 12 with
    | Except.ok h => Except.ok (usuario.set "password" (JVal.str h))
    | Except.error e => Except.error e
  else Except.ok usuario

/-- Hook `beforeUpdate` (Usuario.js lines 53-57). -/
def beforeUpdate (E : Env) (usuario : Usuario) : Except String Usuario :=
  if usuario.changed "password" then
    match bcryptHash E (usuario.get "password") 12 with
    | Except.ok h => Except.ok (usuario.set "password" (JVal.str h))
    | Except.error e => Except.error e
  else Except.ok usuario

/-- Method `compararPassword` (Usuario.js lines 62-64). -/
def Usuario.compararPassword (E : Env) (self : Usuario) (password : JVal) :
    Except String Bool :=
  bcryptCompare E password (self.get "password")

/-- Sequelize's `toJSON()`: a copy of the data values. -/
def Usuario.toJSON (self : Usuario) : Obj := self.dataValues

/-- Method `toSafeJSON` (Usuario.js lines 67-70). -/
def Usuario.toSafeJSON (self : Usuario) : Obj :=
  (self.toJSON).rest "password"

/-! ## `Usuario.create`: build, validate, hook, INSERT -/

/-- The table `usuarios`: its rows in insertion order. -/
abbrev Store := List Obj

/-- How `Usuario.create` can reject. -/
inductive SequelizeError where
  | validation (items : List ValidationErrorItem)
  | hook (msg : String)
  | uniqueConstraint (msg : String)
  deriving DecidableEq, Repr

/-- The `message` property of the rejection. -/
def SequelizeError.message : SequelizeError → String
  | SequelizeError.validation items =>
    ",\n".intercalate (items.map (fun i => i.type ++ ": " ++ i.message))
  | SequelizeError.hook msg => msg
  | SequelizeError.uniqueConstraint msg => msg

/-- The value a new instance takes for attribute `k`: the supplied one, or
the declared default when the caller supplies `undefined`. -/
def initial (values : Obj) (k : String) : JVal :=
  if values.get k = JVal.undefined then defaults.get k else values.get k

/-- The call `Usuario.build(values)` for the attributes a caller supplies
(`nombre`, `email`, `password`, `rol`, `activo`); `id` and the timestamps
are assigned on INSERT. -/
def build (values : Obj) : Usuario :=
  { dataValues :=
      [("id", JVal.null), ("nombre", initial values "nombre"),
       ("email", initial values "email"), ("password", initial values "password"),
       ("rol", initial values "rol"), ("activo", initial values "activo")]
    changedKeys := ["nombre", "email", "password", "rol", "activo"].filter
      (fun k => values.get k ≠ JVal.undefined) }

/-- The row written by the INSERT: the data values with the id chosen by
the database and both timestamps. -/
def insertRow (E : Env) (u : Usuario) : Obj :=
  ((u.dataValues.set "id" (JVal.num E.newId)).set "created_at" (JVal.str E.now)).set
    "updated_at" (JVal.str E.now)

/-- The unique index on `email` (`unique: { msg: ... }`): an INSERT is
refused when a stored row carries the same email value.  Values are
compared as they are; a collation that identifies more values refuses at
least these. -/
def emailTaken (store : Store) (email : JVal) : Bool :=
  store.any (fun r => decide (r.get "email" = email))

/-- The call `Usuario.create(values)` against the table `store`, in the
order Sequelize follows: build the instance, run the declared validators,
run `beforeCreate`, INSERT.  Returns the persisted instance and the new
table, or the rejection (the table is then as before).  Of the constraints
of the database only the declared unique index is modelled; Sequelize sends
`rol` and the string lengths as they are. -/
def Usuario.create (E : Env) (store : Store) (values : Obj) :
    Except SequelizeError (Usuario × Store) :=
  let usuario := build values
  match validate E usuario with
  | item :: items => Except.error (SequelizeError.validation (item :: items))
  | [] =>
    match beforeCreate E usuario with
    | Except.error e => Except.error (SequelizeError.hook e)
    | Except.ok hashed =>
      let row := insertRow E hashed
      if emailTaken store (row.get "email") then
        Except.error (SequelizeError.uniqueConstraint "Este email ya está registrado")
      else Except.ok ({ dataValues := row, changedKeys := [] }, store ++ [row])

/-- The table after a call of `create`: the returned one, or the one
before when the call rejects. -/
def tableAfter (store : Store) (r : Except SequelizeError (Usuario × Store)) : Store :=
  match r with
  | Except.ok (_, store1) => store1
  | Except.error _ => store

/-- The email column of the table. -/
def emails (store : Store) : List JVal := store.map (fun r => r.get "email")

/-- The stored rows that carry the email value `email`. -/
def rowsWithEmail (store : Store) (email : JVal) : List Obj :=
  store.filter (fun r => decide (r.get "email" = email))

/-! ## `database.js` -/

/-- Function `testConnection` (database.js lines 22-29).  `auth` is the
outcome of `sequelize.authenticate()`: `ok` or the message of the error it
rejects with.  Returns the lines written to the console and the completion
of the function: the value it resolves to, or the error it rejects with. -/
def testConnection (auth : Except String Unit) : List String × Except String JVal :=
  match auth with
  | Except.ok _ =>
    (["Conexión a la base de datos establecida correctamente."], Except.ok JVal.undefined)
  | Except.error e =>
    (["No se pudo conectar a la base de datos: " ++ e], Except.ok JVal.undefined)

/-! ## The handlers of `src/server.js` -/

/-- A value inside a response body: a scalar or one nested plain object. -/
inductive Json where
  | val (v : JVal)
  | obj (o : Obj)
  deriving DecidableEq, Repr

/-- An HTTP response: the status code and the properties of the JSON body. -/
structure Response where
  status : Nat
  body : List (String × Json)
  deriving DecidableEq, Repr

/-- What `JSON.stringify` keeps of a plain object: properties whose value
is `undefined` are left out. -/
def stringifyObj (o : Obj) : Obj := o.filter (fun kv => kv.2 ≠ JVal.undefined)

/-- The calls `res.status(code).json(body)`: serialisation drops `undefined`
properties at both levels. -/
def sendJson (code : Nat) (body : List (String × Json)) : Response :=
  { status := code
    body := (body.filter (fun kv => kv.2 ≠ Json.val JVal.undefined)).map
      (fun kv => match kv.2 with
        | Json.val v => (kv.1, Json.val v)
        | Json.obj o => (kv.1, Json.obj (stringifyObj o))) }

/-- Property read on a response body. -/
def Response.field (r : Response) (k : String) : Option Json := r.body.lookup k

/-- Handler of `GET /api/health` (server.js lines 11-17). -/
def getHealth (E : Env) : Response :=
  sendJson 200
    [("status", Json.val (JVal.num 200)),
     ("message", Json.val (JVal.str "El API está funcionando")),
     ("timestamp", Json.val (JVal.str E.now))]

/-- Handler of `GET /api/testmysql` (server.js lines 19-35).  `dbName` is
`process.env.DB_NAME`. -/
def getTestmysql (E : Env) (dbName : JVal) (auth : Except String Unit) :
    Response × List String :=
  match testConnection auth with
  | (out, Except.ok _) =>
    (sendJson 200
      [("status", Json.val (JVal.num 200)),
       ("message", Json.val (JVal.str "Conexión a la base de datos establecida correctamente.")),
       ("database", Json.val dbName),
       ("timestamp", Json.val (JVal.str E.now))], out)
  | (out, Except.error message) =>
    (sendJson 500
      [("status", Json.val (JVal.num 500)),
       ("message", Json.val (JVal.str "No se pudo conectar a la base de datos")),
       ("error", Json.val (JVal.str message))], out)

/-- The catch-all middleware (server.js lines 37-42). -/
def catchAll : Response :=
  sendJson 404
    [("status", Json.val (JVal.num 404)),
     ("message", Json.val (JVal.str "La ruta definida no existe"))]

/-- The object literal passed to `Usuario.create` by the user-creation
handler (server.js lines 50-56). -/
def createArgs (body : Obj) : Obj :=
  [("nombre", body.get "nombre"), ("email", body.get "email"),
   ("password", body.get "password"), ("rol", JVal.str "user")]

/-- Handler of `POST /api/test-usuarios` (server.js lines 48-69): the
response and the table afterwards.  `res.json` serialises the instance
through its `toJSON()`. -/
def postTestUsuarios (E : Env) (store : Store) (body : Obj) : Response × Store :=
  match Usuario.create E store (createArgs body) with
  | Except.ok (usuario, store1) =>
    (sendJson 201
      [("status", Json.val (JVal.num 201)),
       ("message", Json.val (JVal.str "Usuario creado exitosamente")),
       ("usuario", Json.obj usuario.toJSON)], store1)
  | Except.error error =>
    (sendJson 400
      [("status", Json.val (JVal.num 400)),
       ("message", Json.val (JVal.str "Error al crear el usuario")),
       ("error", Json.val (JVal.str error.message))], store)

/-! ## The application of `src/server.js`: layers in registration order -/

/-- The functions registered on the application. -/
inductive Handler where
  | jsonBody
  | health
  | testmysql
  | notFound
  | testUsuarios
  deriving DecidableEq, Repr

/-- One registration: `app.use(fn)` or `app.METHOD(path, fn)`. -/
inductive Layer where
  | use (h : Handler)
  | route (method path : String) (h : Handler)
  deriving DecidableEq, Repr

/-- The registrations of server.js, top to bottom: lines 9, 11, 19, 37, 48. -/
def app : List Layer :=
  [Layer.use Handler.jsonBody,
   Layer.route "GET" "/api/health" Handler.health,
   Layer.route "GET" "/api/testmysql" Handler.testmysql,
   Layer.use Handler.notFound,
   Layer.route "POST" "/api/test-usuarios" Handler.testUsuarios]

/-- An incoming request whose JSON body `express.json()` has parsed. -/
structure Request where
  method : String
  path : String
  body : Obj
  deriving DecidableEq, Repr

/-- What the handlers read and write besides the request: the table, the
console, the state of the database connection and `process.env.DB_NAME`. -/
structure World where
  store : Store
  console : List String
  auth : Except String Unit
  dbName : JVal

/-- Whether Express offers the request to a layer: `use` without a path
takes every request, a route takes its method and path (a GET route also
takes HEAD). -/
def Layer.accepts (l : Layer) (req : Request) : Bool :=
  match l with
  | Layer.use _ => true
  | Layer.route m p _ =>
    (decide (req.method = m) || (decide (m = "GET") && decide (req.method = "HEAD")))
      && decide (req.path = p)

/-- The handler of a layer. -/
def Layer.handler : Layer → Handler
  | Layer.use h => h
  | Layer.route _ _ h => h

/-- Run one handler: `none` when it calls `next()`, otherwise the response
it sends and the world afterwards. -/
def runHandler (E : Env) (w : World) (req : Request) :
    Handler → Option (Response × World)
  | Handler.jsonBody => none
  | Handler.health => some (getHealth E, w)
  | Handler.testmysql =>
    let r := getTestmysql E w.dbName w.auth
    some (r.1, { w with console := w.console ++ r.2 })
  | Handler.notFound => some (catchAll, w)
  | Handler.testUsuarios =>
    let r := postTestUsuarios E w.store req.body
    some (r.1, { w with store := r.2 })

/-- Express dispatch: layers are tried in registration order and the first
accepting layer whose handler responds ends the request.  The result names
the handler that answered; `none` when every layer passed. -/
def dispatch (E : Env) (w : World) (req : Request) :
    List Layer → Option (Handler × Response × World)
  | [] => none
  | l :: rest =>
    if l.accepts req then
      match runHandler E w req l.handler with
      | some r => some (l.handler, r)
      | none => dispatch E w req rest
    else dispatch E w req rest

/-- The application answering one request. -/
def serve (E : Env) (w : World) (req : Request) : Option (Handler × Response × World) :=
  dispatch E w req app

/-! ## A concrete environment for the worked instances -/

/-- A stand-in for the library functions on which the definitions can be
evaluated: the hash keeps the password behind a fixed header, the
comparison looks at what bcrypt reads of the two passwords. -/
def demoEnv : Env :=
  { hash := fun p _ _ => "$2a$12$" ++ p
    compare := fun c h => decide (bcryptKey c = bcryptKey (String.mk (h.data.drop 7)))
    salt := "N9qo8uLOickgx2ZMRZoMye"
    isEmail := fun s => s.data.contains (Char.ofNat 64)
    now := "2024-01-01T00:00:00.000Z"
    newId := 1 }

/-- The request body of the scenario in the specification. -/
def anaBody : Obj :=
  [("nombre", JVal.str "Ana Li"), ("email", JVal.str "ana@x.com"),
   ("password", JVal.str "secret1"), ("rol", JVal.str "usuario")]

/-- The row stored for `anaBody` by the user-creation handler under `demoEnv`. -/
def anaRow : Obj :=
  [("id", JVal.num 1), ("nombre", JVal.str "Ana Li"), ("email", JVal.str "ana@x.com"),
   ("password", JVal.str "$2a$12$secret1"), ("rol", JVal.str "user"),
   ("activo", JVal.bool true), ("created_at", JVal.str "2024-01-01T00:00:00.000Z"),
   ("updated_at", JVal.str "2024-01-01T00:00:00.000Z")]

/-- Arguments of `create` whose password repeats `wrong` behind a NUL
character; the password has 11 characters. -/
def nulValues : Obj :=
  [("nombre", JVal.str "Ana Li"), ("email", JVal.str "ana@x.com"),
   ("password", JVal.str "wrong\x00wrong")]

/-- The row stored for `nulValues` under `demoEnv`. -/
def nulRow : Obj :=
  [("id", JVal.num 1), ("nombre", JVal.str "Ana Li"), ("email", JVal.str "ana@x.com"),
   ("password", JVal.str "$2a$12$wrong\x00wrong"), ("rol", JVal.str "usuario"),
   ("activo", JVal.bool true), ("created_at", JVal.str "2024-01-01T00:00:00.000Z"),
   ("updated_at", JVal.str "2024-01-01T00:00:00.000Z")]

/-- Arguments of `create` whose password is `12345` followed by the
variation selector U+FE0F: six characters, six UTF-16 code units. -/
def selectorValues : Obj :=
  [("nombre", JVal.str "Ana Li"), ("email", JVal.str "ana@x.com"),
   ("password", JVal.str "12345\uFE0F")]

/-- A nombre of 101 characters: one hundred letters and the variation
selector U+FE0F. -/
def longNombre : String := String.mk (List.replicate 100 (Char.ofNat 97) ++ [Char.ofNat 0xFE0F])

/-! ## Properties of plain objects -/

theorem Obj.get_set_self (o : Obj) (k : String) (v : JVal) : (o.set k v).get k = v := by
  induction o with
  | nil => simp [Obj.set, Obj.get, List.lookup]
  | cons hd tl ih =>
    obtain ⟨k0, v0⟩ := hd
    by_cases h : k0 = k
    · simp [Obj.set, Obj.get, List.lookup, h]
    · have h2 : (k == k0) = false := by simp [Ne.symm h]
      simp only [Obj.set, h, if_false]
      simp only [Obj.get, List.lookup, h2] at ih ⊢
      exact ih

theorem Obj.get_set_ne (o : Obj) (k k1 : String) (v : JVal) (hne : k1 ≠ k) :
    (o.set k v).get k1 = o.get k1 := by
  induction o with
  | nil =>
    have h2 : (k1 == k) = false := by simp [hne]
    simp [Obj.set, Obj.get, List.lookup, h2]
  | cons hd tl ih =>
    obtain ⟨k0, v0⟩ := hd
    by_cases h : k0 = k
    · subst h
      have h2 : (k1 == k0) = false := by simp [hne]
      simp [Obj.set, Obj.get, List.lookup, h2]
    · simp only [Obj.set, h, if_false]
      by_cases h3 : k1 = k0
      · subst h3
        simp [Obj.get, List.lookup]
      · have h4 : (k1 == k0) = false := by simp [h3]
        simp only [Obj.get, List.lookup, h4] at ih ⊢
        exact ih

theorem Obj.get_rest_ne (o : Obj) (k k1 : String) (hne : k1 ≠ k) :
    (o.rest k).get k1 = o.get k1 := by
  induction o with
  | nil => rfl
  | cons hd tl ih =>
    obtain ⟨k0, v0⟩ := hd
    by_cases h : k0 = k
    · subst h
      have h2 : (k1 == k0) = false := by simp [hne]
      simp only [Obj.rest, Obj.get] at ih ⊢
      simp only [List.filter, ne_eq, not_true_eq_false, decide_False, List.lookup, h2]
      exact ih
    · simp only [Obj.rest, Obj.get] at ih ⊢
      simp only [List.filter, h, ne_eq, not_false_eq_true, decide_True, List.lookup]
      by_cases h3 : k1 = k0
      · subst h3; simp
      · have h4 : (k1 == k0) = false := by simp [h3]
        simp only [h4]
        exact ih

/-! ## Properties of the creation pipeline -/

theorem Usuario.attr_set_self (u : Usuario) (k : String) (v : JVal) : (u.set k v).get k = v := by
  simp [Usuario.get, Usuario.set, Obj.get_set_self]

theorem Usuario.attr_set_ne (u : Usuario) (k k1 : String) (v : JVal) (hne : k1 ≠ k) :
    (u.set k v).get k1 = u.get k1 := by
  simp [Usuario.get, Usuario.set, Obj.get_set_ne _ _ _ _ hne]

/-! ### The length counted by `isLength` -/

theorem utf16_units (l : List Char) :
    (l.map (fun c => if c.toNat < 0x10000 then 1 else 2)).sum
      = l.length + l.countP (fun c => decide (0x10000 ≤ c.toNat)) := by
  induction l with
  | nil => rfl
  | cons c tl ih =>
    simp only [List.map_cons, List.sum_cons, List.length_cons, List.countP_cons, ih]
    by_cases h : c.toNat < 0x10000
    · have h2 : ¬ (0x10000 ≤ c.toNat) := by omega
      simp [h, h2]; omega
    · have h2 : 0x10000 ≤ c.toNat := by omega
      simp [h, h2]; omega

theorem jsLength_eq (s : String) : jsLength s = s.length + surrogatePairs s :=
  utf16_units s.data

theorem presentationSequences_le (s : String) : presentationSequences s ≤ s.length :=
  List.countP_le_length _

/-- The length `isLength` compares with the bounds is the number of
characters that are not variation selectors. -/
theorem len_iff (a b : Nat) (s : String) :
    len a b s = true ↔
      a ≤ s.length - presentationSequences s ∧ s.length - presentationSequences s ≤ b := by
  have h1 := jsLength_eq s
  have h2 := presentationSequences_le s
  have h3 : jsLength s - presentationSequences s - surrogatePairs s
      = s.length - presentationSequences s := by omega
  simp [len, isLength, h3]

theorem length_ge_of_len (a b : Nat) (s : String) (h : len a b s = true) : a ≤ s.length := by
  have := (len_iff a b s).1 h
  omega

theorem build_get_password (values : Obj) :
    (build values).get "password" = values.get "password" := by
  by_cases h : values.get "password" = JVal.undefined
  · simp [build, Usuario.get, Obj.get, List.lookup, initial, defaults]
    simp [Obj.get] at h
    simp [h]
  · simp [build, Usuario.get, Obj.get, List.lookup, initial]
    simp [Obj.get] at h
    simp [h]

theorem build_get_email (values : Obj) :
    (build values).get "email" = values.get "email" := by
  by_cases h : values.get "email" = JVal.undefined
  · simp [build, Usuario.get, Obj.get, List.lookup, initial, defaults]
    simp [Obj.get] at h
    simp [h]
  · simp [build, Usuario.get, Obj.get, List.lookup, initial]
    simp [Obj.get] at h
    simp [h]

theorem build_get_nombre (values : Obj) :
    (build values).get "nombre" = values.get "nombre" := by
  by_cases h : values.get "nombre" = JVal.undefined
  · simp [build, Usuario.get, Obj.get, List.lookup, initial, defaults]
    simp [Obj.get] at h
    simp [h]
  · simp [build, Usuario.get, Obj.get, List.lookup, initial]
    simp [Obj.get] at h
    simp [h]

/-- A value accepted by the password rule is truthy. -/
theorem truthy_of_validatePassword (v : JVal) (hv : validatePassword v = []) :
    v.truthy = true := by
  cases v with
  | undefined => simp [validatePassword, JVal.isNullish, notNullItem] at hv
  | null => simp [validatePassword, JVal.isNullish, notNullItem] at hv
  | bool b =>
    cases b <;> simp [validatePassword, JVal.isNullish, check, JVal.toStr, validatorItem] at hv
      <;> exact absurd hv (by decide)
  | num n =>
    by_cases hn : n = 0
    · subst hn
      simp [validatePassword, JVal.isNullish, check, JVal.toStr, validatorItem] at hv
      exact absurd hv (by decide)
    · simp [JVal.truthy, hn]
  | str raw =>
    have hl : len 6 255 raw = true := by
      simpa [validatePassword, JVal.isNullish, check, JVal.toStr, validatorItem] using hv
    have hne : raw ≠ "" := by
      intro he; subst he; exact absurd hl (by decide)
    simp [JVal.truthy, hne]

/-- A call of `create` rejects with the validation error as soon as one
declared validator fails. -/
theorem create_validation_error (E : Env) (store : Store) (values : Obj)
    (item : ValidationErrorItem) (hmem : item ∈ validate E (build values)) :
    ∃ items, Usuario.create E store values = Except.error (SequelizeError.validation items) ∧
      item ∈ items := by
  unfold Usuario.create
  simp only
  cases hv : validate E (build values) with
  | nil => rw [hv] at hmem; simp at hmem
  | cons i items =>
    rw [hv] at hmem
    exact ⟨i :: items, rfl, hmem⟩

theorem insertRow_get (E : Env) (u : Usuario) (k : String)
    (h1 : k ≠ "id") (h2 : k ≠ "created_at") (h3 : k ≠ "updated_at") :
    (insertRow E u).get k = u.get k := by
  simp [insertRow, Usuario.get, Obj.get_set_ne _ _ _ _ h1, Obj.get_set_ne _ _ _ _ h2,
    Obj.get_set_ne _ _ _ _ h3]

/-- What a successful `create` went through. -/
theorem create_ok_inv (E : Env) (store store1 : Store) (values : Obj) (u : Usuario)
    (h : Usuario.create E store values = Except.ok (u, store1)) :
    validate E (build values) = [] ∧
    ∃ hashed, beforeCreate E (build values) = Except.ok hashed ∧
      emailTaken store ((insertRow E hashed).get "email") = false ∧
      u = { dataValues := insertRow E hashed, changedKeys := [] } ∧
      store1 = store ++ [insertRow E hashed] := by
  unfold Usuario.create at h
  simp only at h
  cases hv : validate E (build values) with
  | cons item items => rw [hv] at h; simp at h
  | nil =>
    rw [hv] at h
    simp only at h
    cases hb : beforeCreate E (build values) with
    | error e => rw [hb] at h; simp at h
    | ok hashed =>
      rw [hb] at h
      simp only at h
      by_cases ht : emailTaken store ((insertRow E hashed).get "email") = true
      · rw [if_pos ht] at h; simp at h
      · rw [if_neg ht] at h
        simp only [Except.ok.injEq, Prod.mk.injEq] at h
        refine ⟨rfl, hashed, rfl, by simpa using ht, h.1.symm, h.2.symm⟩

/-- A password that passes validation and the hook is a string of length
6 to 255, and the hook stores its cost-12 hash. -/
theorem password_hashed (E : Env) (u hashed : Usuario)
    (hv : validatePassword (u.get "password") = [])
    (hb : beforeCreate E u = Except.ok hashed) :
    ∃ raw, u.get "password" = JVal.str raw ∧ len 6 255 raw = true ∧
      hashed = u.set "password" (JVal.str (E.hash raw 12 E.salt)) := by
  unfold beforeCreate at hb
  cases hp : u.get "password" with
  | undefined => rw [hp] at hv; simp [validatePassword, JVal.isNullish, notNullItem] at hv
  | null => rw [hp] at hv; simp [validatePassword, JVal.isNullish, notNullItem] at hv
  | bool b =>
    rw [hp] at hv
    cases b <;> simp [validatePassword, JVal.isNullish, check, JVal.toStr, validatorItem] at hv
      <;> exact absurd hv (by decide)
  | num n =>
    rw [hp] at hv hb
    by_cases hn : n = 0
    · subst hn
      simp [validatePassword, JVal.isNullish, check, JVal.toStr, validatorItem] at hv
      exact absurd hv (by decide)
    · simp [JVal.truthy, hn, bcryptHash] at hb
  | str raw =>
    rw [hp] at hv hb
    have hl : len 6 255 raw = true := by
      simpa [validatePassword, JVal.isNullish, check, JVal.toStr, validatorItem] using hv
    have hne : raw ≠ "" := by
      intro he; subst he; revert hl; decide
    simp [JVal.truthy, hne, bcryptHash] at hb
    exact ⟨raw, rfl, hl, hb.symm⟩

theorem validate_nil (E : Env) (u : Usuario) (h : validate E u = []) :
    validateNombre (u.get "nombre") = [] ∧ validateEmail E (u.get "email") = [] ∧
      validatePassword (u.get "password") = [] := by
  simpa [validate, and_assoc] using h

theorem create_ana :
    Usuario.create demoEnv [] (createArgs anaBody) =
      Except.ok ({ dataValues := anaRow, changedKeys := [] }, [anaRow]) := by
  rfl

/-- Whenever `create` succeeds the supplied password was a string of length
6 to 255 and the returned instance, which is the appended row, carries its
cost-12 hash. -/
theorem beforeCreate_hash_of_create (E : Env) (store store1 : Store) (values : Obj)
    (u : Usuario) (h : Usuario.create E store values = Except.ok (u, store1)) :
    ∃ raw, values.get "password" = JVal.str raw ∧ len 6 255 raw = true ∧
      u.get "password" = JVal.str (E.hash raw 12 E.salt) ∧
      store1 = store ++ [u.dataValues] ∧ u.changedKeys = [] := by
  obtain ⟨hv, hashed, hb, _, hu, hs⟩ := create_ok_inv E store store1 values u h
  obtain ⟨raw, hraw, hlen, hh⟩ :=
    password_hashed E (build values) hashed (validate_nil E _ hv).2.2 hb
  have hget : u.get "password" = JVal.str (E.hash raw 12 E.salt) := by
    rw [hu]
    show (insertRow E hashed).get "password" = _
    rw [insertRow_get E hashed "password" (by decide) (by decide) (by decide), hh,
      Usuario.attr_set_self]
  refine ⟨raw, ?_, hlen, hget, ?_, ?_⟩
  · rw [← build_get_password, hraw]
  · rw [hs, hu]
  · rw [hu]

/-! ## The claims -/

/-- C1: the guard `if (usuario.password)` of `beforeCreate` is true on every
instance whose password passed the model's validation.  For every creation
whose raw password is a string of length 6 to 255, the hook replaces the
password of the built instance by `bcrypt.hash(raw, 12)`.  Whenever `create`
succeeds, the supplied password was such a string, and the returned instance,
which is the row appended to the table, carries its cost-12 hash; that is not
the raw value unless bcrypt maps the raw value to itself. -/
theorem beforeCreate_stores_hash (E : Env) (store : Store) (values : Obj) :
    (∀ usuario : Usuario, validatePassword (usuario.get "password") = [] →
      (usuario.get "password").truthy = true) ∧
    (∀ raw, values.get "password" = JVal.str raw → len 6 255 raw = true →
      validatePassword ((build values).get "password") = [] ∧
      beforeCreate E (build values) =
        Except.ok ((build values).set "password" (JVal.str (E.hash raw 12 E.salt))) ∧
      ((build values).set "password" (JVal.str (E.hash raw 12 E.salt))).get "password"
        = JVal.str (E.hash raw 12 E.salt)) ∧
    (∀ u store1, Usuario.create E store values = Except.ok (u, store1) →
      ∃ raw, values.get "password" = JVal.str raw ∧ len 6 255 raw = true ∧
        u.get "password" = JVal.str (E.hash raw 12 E.salt) ∧
        store1 = store ++ [u.dataValues] ∧
        (E.hash raw 12 E.salt ≠ raw → u.get "password" ≠ JVal.str raw)) := by
  refine ⟨fun usuario hv => truthy_of_validatePassword _ hv, ?_, ?_⟩
  · intro raw hraw hlen
    have hne : raw ≠ "" := by
      intro he; subst he; exact absurd hlen (by decide)
    have hp : (build values).get "password" = JVal.str raw := by
      rw [build_get_password, hraw]
    refine ⟨?_, ?_, Usuario.attr_set_self _ _ _⟩
    · simp [hp, validatePassword, JVal.isNullish, check, JVal.toStr, hlen]
    · simp [beforeCreate, hp, JVal.truthy, hne, bcryptHash]
  · intro u store1 h
    obtain ⟨raw, hraw, hlen, hget, hs, _⟩ :=
      beforeCreate_hash_of_create E store store1 values u h
    refine ⟨raw, hraw, hlen, hget, hs, ?_⟩
    intro hne heq
    rw [hget] at heq
    exact hne (JVal.str.inj heq)

/-- Worked instance of C1: the scenario body, created on the empty table. -/
theorem beforeCreate_stores_hash_witness :
    (JVal.str "secret1").truthy = true ∧
    (validatePassword ((build (createArgs anaBody)).get "password") = [] ∧
      beforeCreate demoEnv (build (createArgs anaBody)) =
        Except.ok ((build (createArgs anaBody)).set "password" (JVal.str "$2a$12$secret1")) ∧
      ((build (createArgs anaBody)).set "password" (JVal.str "$2a$12$secret1")).get "password"
        = JVal.str "$2a$12$secret1") ∧
    Usuario.create demoEnv [] (createArgs anaBody)
      = Except.ok ({ dataValues := anaRow, changedKeys := [] }, [anaRow]) ∧
    ∃ raw, (createArgs anaBody).get "password" = JVal.str raw ∧ len 6 255 raw = true ∧
      Usuario.get { dataValues := anaRow, changedKeys := [] } "password"
        = JVal.str (demoEnv.hash raw 12 demoEnv.salt) ∧
      [anaRow] = [] ++ [anaRow] ∧
      (demoEnv.hash raw 12 demoEnv.salt ≠ raw →
        Usuario.get { dataValues := anaRow, changedKeys := [] } "password" ≠ JVal.str raw) :=
  ⟨(beforeCreate_stores_hash demoEnv [] (createArgs anaBody)).1
      { dataValues := [("password", JVal.str "secret1")], changedKeys := [] } (by decide),
   (beforeCreate_stores_hash demoEnv [] (createArgs anaBody)).2.1 "secret1" (by decide)
      (by decide),
   create_ana,
   (beforeCreate_stores_hash demoEnv [] (createArgs anaBody)).2.2 _ _ create_ana⟩

/-- C2: `toSafeJSON` is a total function of the record.  Its result has no
key `password`; every other key reads the same value as in `toJSON()`; an
entry under another key is in the result exactly when it is in `toJSON()`;
the result is `toJSON()` with entries left out, in the same order, so it has
no other keys; and every key of `toJSON()` other than `password` is a key of
the result. -/
theorem toSafeJSON_drops_only_password (u : Usuario) :
    "password" ∉ (u.toSafeJSON).keys ∧
    (∀ k, k ≠ "password" → (u.toSafeJSON).get k = (u.toJSON).get k) ∧
    (∀ k v, k ≠ "password" → ((k, v) ∈ u.toSafeJSON ↔ (k, v) ∈ u.toJSON)) ∧
    List.Sublist u.toSafeJSON u.toJSON ∧
    (∀ k, k ∈ (u.toSafeJSON).keys → k ∈ (u.toJSON).keys) ∧
    (∀ k, k ∈ (u.toJSON).keys → k ≠ "password" → k ∈ (u.toSafeJSON).keys) := by
  refine ⟨?_, ?_, ?_, ?_, ?_, ?_⟩
  · simp [Usuario.toSafeJSON, Obj.rest, Obj.keys, List.mem_filter]
  · intro k hk
    exact Obj.get_rest_ne _ _ _ hk
  · intro k v hk
    simp [Usuario.toSafeJSON, Obj.rest, List.mem_filter, hk]
  · exact List.filter_sublist _
  · intro k hk
    simp only [Usuario.toSafeJSON, Obj.rest, Obj.keys, List.mem_map, List.mem_filter] at hk ⊢
    obtain ⟨kv, ⟨hmem, _⟩, hfst⟩ := hk
    exact ⟨kv, hmem, hfst⟩
  · intro k hk hne
    simp only [Usuario.toSafeJSON, Obj.rest, Obj.keys, List.mem_map, List.mem_filter] at hk ⊢
    obtain ⟨kv, hmem, hfst⟩ := hk
    exact ⟨kv, ⟨hmem, by simp [hfst, hne]⟩, hfst⟩

/-- Worked instance of C2: the stored scenario row keeps its `nombre` and
loses its `password`. -/
theorem toSafeJSON_drops_only_password_witness :
    "password" ∉ (Usuario.toSafeJSON { dataValues := anaRow, changedKeys := [] }).keys ∧
    (Usuario.toSafeJSON { dataValues := anaRow, changedKeys := [] }).get "nombre"
      = (Usuario.toJSON { dataValues := anaRow, changedKeys := [] }).get "nombre" ∧
    (("email", JVal.str "ana@x.com") ∈
        Usuario.toSafeJSON { dataValues := anaRow, changedKeys := [] } ↔
      ("email", JVal.str "ana@x.com") ∈
        Usuario.toJSON { dataValues := anaRow, changedKeys := [] }) :=
  ⟨(toSafeJSON_drops_only_password { dataValues := anaRow, changedKeys := [] }).1,
   (toSafeJSON_drops_only_password { dataValues := anaRow, changedKeys := [] }).2.1
     "nombre" (by decide),
   (toSafeJSON_drops_only_password { dataValues := anaRow, changedKeys := [] }).2.2.1
     "email" (JVal.str "ana@x.com") (by decide)⟩

/-- C6 as stated fails: the raw password `12345` followed by the variation
selector U+FE0F has length 6, in characters and in UTF-16 code units, yet the
password rule rejects it and `create` fails with that validation error; and
a nombre of length 101, one hundred letters and the same selector, passes the
rules of nombre. -/
theorem len_rejects_password_of_length_six :
    String.length "12345\uFE0F" = 6 ∧ jsLength "12345\uFE0F" = 6 ∧
    validatePassword (JVal.str "12345\uFE0F")
      = [validatorItem "password" "La contraseña debe tener al menos 6 caracteres"] ∧
    Usuario.create demoEnv [] selectorValues
      = Except.error (SequelizeError.validation
          [validatorItem "password" "La contraseña debe tener al menos 6 caracteres"]) ∧
    longNombre.length = 101 ∧ jsLength longNombre = 101 ∧
    validateNombre (JVal.str longNombre) = [] := by
  refine ⟨by decide, by decide, by decide, rfl, by decide, by decide, by decide⟩

/-- C6, amended: the `len` validators accept a nombre exactly when its
length is 2 to 100 and a password exactly when its length is 6 to 255, the
length being the number of characters that are not the variation selectors
U+FE0E and U+FE0F; for a string without variation selectors that is its
number of characters.  A nombre of length 1 and a password of length 5 get
the declared validation error; a nombre of length 2 and a password of length
6 without variation selectors do not.  `create` rejects a nombre or a raw
password of a wrong length with the validation error that carries the
declared entry, whatever bcrypt would return, and the password that is
validated is the raw value supplied to `create`. -/
theorem len_validators_bounds (E : Env) (store : Store) (values : Obj) (s : String) :
    (len 2 100 s = true ↔ 2 ≤ s.length - presentationSequences s ∧
        s.length - presentationSequences s ≤ 100) ∧
    (len 6 255 s = true ↔ 6 ≤ s.length - presentationSequences s ∧
        s.length - presentationSequences s ≤ 255) ∧
    (validatorItem "nombre" "El nombre debe tener entre 2 y 100 caracteres"
        ∈ validateNombre (JVal.str s) ↔
      ¬ (2 ≤ s.length - presentationSequences s ∧
        s.length - presentationSequences s ≤ 100)) ∧
    (validatePassword (JVal.str s) = [] ↔ 6 ≤ s.length - presentationSequences s ∧
        s.length - presentationSequences s ≤ 255) ∧
    (presentationSequences s = 0 →
      (len 2 100 s = true ↔ 2 ≤ s.length ∧ s.length ≤ 100) ∧
      (len 6 255 s = true ↔ 6 ≤ s.length ∧ s.length ≤ 255)) ∧
    (s.length = 1 → validatorItem "nombre" "El nombre debe tener entre 2 y 100 caracteres"
        ∈ validateNombre (JVal.str s)) ∧
    (s.length = 5 → validatePassword (JVal.str s)
        = [validatorItem "password" "La contraseña debe tener al menos 6 caracteres"]) ∧
    (s.length = 2 → presentationSequences s = 0 →
      validatorItem "nombre" "El nombre debe tener entre 2 y 100 caracteres"
        ∉ validateNombre (JVal.str s)) ∧
    (s.length = 6 → presentationSequences s = 0 → validatePassword (JVal.str s) = []) ∧
    (values.get "nombre" = JVal.str s →
      ¬ (2 ≤ s.length - presentationSequences s ∧
        s.length - presentationSequences s ≤ 100) →
      ∃ items, Usuario.create E store values = Except.error (SequelizeError.validation items) ∧
        validatorItem "nombre" "El nombre debe tener entre 2 y 100 caracteres" ∈ items) ∧
    (values.get "password" = JVal.str s →
      ¬ (6 ≤ s.length - presentationSequences s ∧
        s.length - presentationSequences s ≤ 255) →
      ∃ items, Usuario.create E store values = Except.error (SequelizeError.validation items) ∧
        validatorItem "password" "La contraseña debe tener al menos 6 caracteres" ∈ items) ∧
    (values.get "password" = JVal.str s →
      validatePassword ((build values).get "password") = validatePassword (JVal.str s)) := by
  have hlen := fun a b => len_iff a b s
  have hnom : validatorItem "nombre" "El nombre debe tener entre 2 y 100 caracteres"
        ∈ validateNombre (JVal.str s) ↔
      ¬ (2 ≤ s.length - presentationSequences s ∧
        s.length - presentationSequences s ≤ 100) := by
    rw [← hlen 2 100]
    cases h1 : len 2 100 s <;> cases h2 : notEmpty s <;>
      simp [validateNombre, JVal.isNullish, JVal.toStr, check, h1, h2, validatorItem]
  have hpw : validatePassword (JVal.str s) = [] ↔ 6 ≤ s.length - presentationSequences s ∧
        s.length - presentationSequences s ≤ 255 := by
    rw [← hlen 6 255]
    cases h1 : len 6 255 s <;>
      simp [validatePassword, JVal.isNullish, JVal.toStr, check, h1]
  have hpw5 : ¬ (6 ≤ s.length - presentationSequences s ∧
        s.length - presentationSequences s ≤ 255) → validatePassword (JVal.str s)
      = [validatorItem "password" "La contraseña debe tener al menos 6 caracteres"] := by
    intro hbad
    have h1 : len 6 255 s = false := by
      cases h : len 6 255 s
      · rfl
      · exact absurd ((hlen 6 255).1 h) hbad
    simp [validatePassword, JVal.isNullish, JVal.toStr, check, h1]
  refine ⟨hlen 2 100, hlen 6 255, hnom, hpw, ?_, ?_, ?_, ?_, ?_, ?_, ?_, ?_⟩
  · intro h0
    rw [hlen 2 100, hlen 6 255, h0]
    simp
  · intro h; rw [hnom]; omega
  · intro h; exact hpw5 (by omega)
  · intro h h0; rw [hnom]; omega
  · intro h h0; rw [hpw]; omega
  · intro hraw hbad
    apply create_validation_error
    have h1 := hnom.2 hbad
    rw [← hraw, ← build_get_nombre] at h1
    simp [validate, h1]
  · intro hraw hbad
    apply create_validation_error
    have h1 := hpw5 hbad
    rw [← hraw, ← build_get_password] at h1
    simp [validate, h1]
  · intro hraw
    rw [build_get_password, hraw]

/-- Worked instance of C6 as amended: the boundary values of the
specification, and a creation at both lower bounds that is accepted. -/
theorem len_validators_bounds_witness :
    validatorItem "nombre" "El nombre debe tener entre 2 y 100 caracteres"
        ∈ validateNombre (JVal.str "A") ∧
    validatePassword (JVal.str "12345")
        = [validatorItem "password" "La contraseña debe tener al menos 6 caracteres"] ∧
    validatorItem "nombre" "El nombre debe tener entre 2 y 100 caracteres"
        ∉ validateNombre (JVal.str "Al") ∧
    validatePassword (JVal.str "123456") = [] ∧
    (∃ items, Usuario.create demoEnv []
          [("nombre", JVal.str "A"), ("email", JVal.str "ana@x.com"),
           ("password", JVal.str "secret1")]
        = Except.error (SequelizeError.validation items) ∧
      validatorItem "nombre" "El nombre debe tener entre 2 y 100 caracteres" ∈ items) ∧
    (∃ items, Usuario.create demoEnv []
          [("nombre", JVal.str "Ana Li"), ("email", JVal.str "ana@x.com"),
           ("password", JVal.str "12345")]
        = Except.error (SequelizeError.validation items) ∧
      validatorItem "password" "La contraseña debe tener al menos 6 caracteres" ∈ items) ∧
    tableAfter [] (Usuario.create demoEnv []
          [("nombre", JVal.str "Al"), ("email", JVal.str "al@x.com"),
           ("password", JVal.str "123456")])
      = [[("id", JVal.num 1), ("nombre", JVal.str "Al"), ("email", JVal.str "al@x.com"),
          ("password", JVal.str "$2a$12$123456"), ("rol", JVal.str "usuario"),
          ("activo", JVal.bool true), ("created_at", JVal.str "2024-01-01T00:00:00.000Z"),
          ("updated_at", JVal.str "2024-01-01T00:00:00.000Z")]] :=
  ⟨(len_validators_bounds demoEnv [] [] "A").2.2.2.2.2.1 (by decide),
   (len_validators_bounds demoEnv [] [] "12345").2.2.2.2.2.2.1 (by decide),
   (len_validators_bounds demoEnv [] [] "Al").2.2.2.2.2.2.2.1 (by decide) (by decide),
   (len_validators_bounds demoEnv [] [] "123456").2.2.2.2.2.2.2.2.1 (by decide) (by decide),
   (len_validators_bounds demoEnv []
      [("nombre", JVal.str "A"), ("email", JVal.str "ana@x.com"),
       ("password", JVal.str "secret1")] "A").2.2.2.2.2.2.2.2.2.1 (by decide) (by decide),
   (len_validators_bounds demoEnv []
      [("nombre", JVal.str "Ana Li"), ("email", JVal.str "ana@x.com"),
       ("password", JVal.str "12345")] "12345").2.2.2.2.2.2.2.2.2.2.1 (by decide) (by decide),
   rfl⟩

/-- C7: `beforeUpdate` leaves the instance exactly as it was when `password`
is not among the changed fields, so the stored hash is not hashed again; when
`password` is among them and holds the new raw string, the hook stores
`bcrypt.hash(newRaw, 12)` in it; whenever the hook completes, every field
other than `password` reads as before, the data values differ from before
only if `password` was among the changed fields, and after a change of
`password` the field holds the cost-12 hash of the string it held. -/
theorem beforeUpdate_rehashes_iff_changed (E : Env) (u : Usuario) :
    (u.changed "password" = false → beforeUpdate E u = Except.ok u) ∧
    (∀ newRaw, u.changed "password" = true → u.get "password" = JVal.str newRaw →
      beforeUpdate E u = Except.ok (u.set "password" (JVal.str (E.hash newRaw 12 E.salt))) ∧
      (u.set "password" (JVal.str (E.hash newRaw 12 E.salt))).get "password"
        = JVal.str (E.hash newRaw 12 E.salt)) ∧
    (∀ u1, beforeUpdate E u = Except.ok u1 → ∀ k, k ≠ "password" → u1.get k = u.get k) ∧
    (∀ u1, beforeUpdate E u = Except.ok u1 → u1.dataValues ≠ u.dataValues →
      u.changed "password" = true) ∧
    (∀ u1, beforeUpdate E u = Except.ok u1 → u.changed "password" = true →
      ∃ newRaw, u.get "password" = JVal.str newRaw ∧
        u1.get "password" = JVal.str (E.hash newRaw 12 E.salt)) := by
  refine ⟨?_, ?_, ?_, ?_, ?_⟩
  · intro h
    simp [beforeUpdate, h]
  · intro newRaw hc hp
    refine ⟨?_, Usuario.attr_set_self _ _ _⟩
    simp [beforeUpdate, hc, hp, bcryptHash]
  · intro u1 h k hk
    unfold beforeUpdate at h
    by_cases hc : u.changed "password" = true
    · rw [if_pos hc] at h
      cases hb : bcryptHash E (u.get "password") 12 with
      | error e => rw [hb] at h; simp at h
      | ok hsh =>
        rw [hb] at h
        simp only [Except.ok.injEq] at h
        rw [← h]
        exact Usuario.attr_set_ne _ _ _ _ hk
    · rw [if_neg hc] at h
      simp only [Except.ok.injEq] at h
      rw [← h]
  · intro u1 h hne
    by_cases hc : u.changed "password" = true
    · exact hc
    · exfalso
      unfold beforeUpdate at h
      rw [if_neg hc] at h
      simp only [Except.ok.injEq] at h
      exact hne (by rw [← h])
  · intro u1 h hc
    unfold beforeUpdate at h
    rw [if_pos hc] at h
    cases hp : u.get "password" with
    | str newRaw =>
      rw [hp] at h
      simp only [bcryptHash, Except.ok.injEq] at h
      exact ⟨newRaw, rfl, by rw [← h]; exact Usuario.attr_set_self _ _ _⟩
    | undefined => rw [hp] at h; simp [bcryptHash] at h
    | null => rw [hp] at h; simp [bcryptHash] at h
    | bool b => rw [hp] at h; simp [bcryptHash] at h
    | num n => rw [hp] at h; simp [bcryptHash] at h

/-- Worked instance of C7: the stored scenario row, once after a change of
`nombre` only and once after the password was set to a new raw value. -/
theorem beforeUpdate_rehashes_iff_changed_witness :
    beforeUpdate demoEnv { dataValues := anaRow, changedKeys := ["nombre"] }
      = Except.ok { dataValues := anaRow, changedKeys := ["nombre"] } ∧
    (beforeUpdate demoEnv
        { dataValues := anaRow.set "password" (JVal.str "secret2"), changedKeys := ["password"] }
      = Except.ok (Usuario.set
          { dataValues := anaRow.set "password" (JVal.str "secret2"), changedKeys := ["password"] }
          "password" (JVal.str "$2a$12$secret2")) ∧
      (Usuario.set
          { dataValues := anaRow.set "password" (JVal.str "secret2"), changedKeys := ["password"] }
          "password" (JVal.str "$2a$12$secret2")).get "password" = JVal.str "$2a$12$secret2") :=
  ⟨(beforeUpdate_rehashes_iff_changed demoEnv
      { dataValues := anaRow, changedKeys := ["nombre"] }).1 (by decide),
   (beforeUpdate_rehashes_iff_changed demoEnv
      { dataValues := anaRow.set "password" (JVal.str "secret2"),
        changedKeys := ["password"] }).2.1 "secret2" (by decide) (by decide)⟩

theorem length_le_utf8 (l : List Char) :
    l.length ≤ (l.flatMap String.utf8EncodeChar).length := by
  induction l with
  | nil => simp
  | cons c tl ih =>
    have hc := Char.utf8Size_pos c
    simp only [List.flatMap_cons, List.length_append, List.length_cons,
      String.length_utf8EncodeChar]
    omega

/-- Inside the password, the key is the password. -/
theorem bcryptKey_getD (p : String) (i : Nat) (hi : i < 72) (h : i < (utf8 p).length) :
    (bcryptKey p).getD i 1 = (utf8 p).getD i 0 := by
  have hmod : i % (utf8 p ++ [0]).length = i := by
    apply Nat.mod_eq_of_lt
    simp only [List.length_append, List.length_singleton]; omega
  simp only [bcryptKey, List.getD_eq_getElem?_getD, List.getElem?_map, List.getElem?_range hi,
    Option.map_some', Option.getD_some, hmod]
  rw [List.getElem?_append_left h]

theorem lor_ne_zero_aux : ∀ v : BitVec 8,
    (UInt8.mk v) ||| 128 ≠ 0 ∧ (UInt8.mk v) ||| 192 ≠ 0 ∧ (UInt8.mk v) ||| 224 ≠ 0 ∧
      (UInt8.mk v) ||| 240 ≠ 0 := by decide

theorem lor_ne_zero (x : UInt8) :
    x ||| 128 ≠ 0 ∧ x ||| 192 ≠ 0 ∧ x ||| 224 ≠ 0 ∧ x ||| 240 ≠ 0 := by
  rcases x with ⟨v⟩
  exact lor_ne_zero_aux v

theorem ascii_ne_zero (c : Char) (hc : c ≠ Char.ofNat 0) (h : c.val ≤ 127) :
    c.val.toUInt8 ≠ 0 := by
  intro hz
  apply hc
  apply Char.ext
  have h1 : c.val.toNat % 256 = 0 := by
    have := congrArg UInt8.toNat hz
    simpa [UInt32.toUInt8, Nat.toUInt8, UInt8.ofNat, UInt8.toNat] using this
  have h2 : c.val.toNat ≤ 127 := by
    have := UInt32.le_def.1 h
    exact this
  have h3 : c.val.toNat = 0 := by omega
  exact UInt32.toNat.inj h3

/-- No byte of the UTF-8 encoding of a character other than NUL is zero. -/
theorem utf8EncodeChar_ne_zero (c : Char) (hc : c ≠ Char.ofNat 0) :
    ∀ b ∈ String.utf8EncodeChar c, b ≠ 0 := by
  intro b hb
  unfold String.utf8EncodeChar at hb
  simp only at hb
  split_ifs at hb with h1 h2 h3
  · simp only [List.mem_singleton] at hb
    rw [hb]; exact ascii_ne_zero c hc h1
  all_goals
    simp only [List.mem_cons, List.mem_singleton, List.not_mem_nil, or_false] at hb
    rcases hb with hb | hb | hb | hb <;> (try subst hb) <;>
      first
        | exact (lor_ne_zero _).1
        | exact (lor_ne_zero _).2.1
        | exact (lor_ne_zero _).2.2.1
        | exact (lor_ne_zero _).2.2.2

theorem utf8_ne_zero (p : String) (hp : Char.ofNat 0 ∉ p.data) : ∀ b ∈ utf8 p, b ≠ 0 := by
  intro b hb
  simp only [utf8, List.mem_flatMap] at hb
  obtain ⟨c, hc, hbc⟩ := hb
  exact utf8EncodeChar_ne_zero c (fun h => hp (h ▸ hc)) b hbc

/-- A password of six or more characters without a NUL character is not
`wrong` for bcrypt: the sixth byte of the key of `wrong` is its NUL
terminator, the sixth byte of the other key is a byte of the password. -/
theorem bcryptKey_wrong_ne (p : String) (hlen : 6 ≤ p.length) (hp : Char.ofNat 0 ∉ p.data) :
    bcryptKey "wrong" ≠ bcryptKey p := by
  intro heq
  have h1 : (bcryptKey "wrong").getD 5 1 = 0 := by decide
  have h6 : 5 < (utf8 p).length := by
    have h3 := length_le_utf8 p.data
    have h4 : 6 ≤ p.data.length := hlen
    simp only [utf8]; omega
  rw [heq, bcryptKey_getD p 5 (by omega) h6] at h1
  have hmem : (utf8 p).getD 5 0 ∈ utf8 p := by
    rw [List.getD_eq_getElem _ _ h6]
    exact List.getElem_mem _
  exact utf8_ne_zero p hp _ hmem h1

/-- C4 as stated fails: the stand-in bcrypt compares exactly as the claim
takes bcrypt to compare, the password `wrong`, NUL, `wrong` has 11
characters and passes the length rule, `create` succeeds with it, and on the
created record `compararPassword` resolves to true for that password and to
true for `wrong`: for bcrypt the two are the same password. -/
theorem compararPassword_wrong_accepted :
    (∀ c p, demoEnv.compare c (demoEnv.hash p 12 demoEnv.salt) = true
      ↔ bcryptKey c = bcryptKey p) ∧
    len 6 255 "wrong\x00wrong" = true ∧
    bcryptKey "wrong" = bcryptKey "wrong\x00wrong" ∧
    Usuario.create demoEnv [] nulValues
      = Except.ok ({ dataValues := nulRow, changedKeys := [] }, [nulRow]) ∧
    Usuario.compararPassword demoEnv { dataValues := nulRow, changedKeys := [] }
      (JVal.str "wrong\x00wrong") = Except.ok true ∧
    Usuario.compararPassword demoEnv { dataValues := nulRow, changedKeys := [] }
      (JVal.str "wrong") = Except.ok true := by
  refine ⟨by intro c p; simp [demoEnv], by decide, by decide, rfl, ?_, ?_⟩
  · simp [Usuario.compararPassword, Usuario.get, nulRow, Obj.get, List.lookup, bcryptCompare,
      demoEnv]
  · have h : bcryptKey "wrong" = bcryptKey "wrong\x00wrong" := by decide
    simp [Usuario.compararPassword, Usuario.get, nulRow, Obj.get, List.lookup, bcryptCompare,
      demoEnv, h]

/-- C4, amended: taking `bcrypt.compare(c, bcrypt.hash(p, 12))` to hold
exactly when `c` and `p` are the same password for bcrypt, on every record
created successfully from the raw password `p`, `compararPassword(p)`
resolves to true, `compararPassword(c)` resolves to whether `c` and `p` are
the same password for bcrypt, so `compararPassword("wrong")` resolves to
false exactly when `wrong` and `p` are not, and that is the case whenever `p`
contains no NUL character. -/
theorem compararPassword_after_create (E : Env)
    (hcmp : ∀ c p, E.compare c (E.hash p 12 E.salt) = true ↔ bcryptKey c = bcryptKey p)
    (store store1 : Store) (values : Obj) (u : Usuario) (p : String)
    (h : Usuario.create E store values = Except.ok (u, store1))
    (hp : values.get "password" = JVal.str p) :
    u.compararPassword E (JVal.str p) = Except.ok true ∧
    (∀ c, u.compararPassword E (JVal.str c)
      = Except.ok (decide (bcryptKey c = bcryptKey p))) ∧
    (u.compararPassword E (JVal.str "wrong") = Except.ok false
      ↔ bcryptKey "wrong" ≠ bcryptKey p) ∧
    (Char.ofNat 0 ∉ p.data → u.compararPassword E (JVal.str "wrong") = Except.ok false) := by
  obtain ⟨raw, hraw, hlen, hget, _, _⟩ :=
    beforeCreate_hash_of_create E store store1 values u h
  have hpr : raw = p := by
    rw [hraw] at hp
    exact JVal.str.inj hp
  subst hpr
  have hall : ∀ c, u.compararPassword E (JVal.str c)
      = Except.ok (decide (bcryptKey c = bcryptKey raw)) := by
    intro c
    simp only [Usuario.compararPassword, hget, bcryptCompare]
    congr 1
    cases hc : E.compare c (E.hash raw 12 E.salt)
    · have hne : ¬ bcryptKey c = bcryptKey raw := fun he => by
        rw [(hcmp c raw).2 he] at hc
        cases hc
      simp [hne]
    · simp [(hcmp c raw).1 hc]
  have hiff : u.compararPassword E (JVal.str "wrong") = Except.ok false
      ↔ bcryptKey "wrong" ≠ bcryptKey raw := by
    rw [hall "wrong"]
    simp
  refine ⟨?_, hall, hiff, ?_⟩
  · rw [hall raw]
    simp
  · intro hnul
    exact hiff.2 (bcryptKey_wrong_ne raw (length_ge_of_len 6 255 raw hlen) hnul)

/-- Worked instance of C4 as amended: the scenario user, whose password has
no NUL character. -/
theorem compararPassword_after_create_witness :
    Usuario.compararPassword demoEnv { dataValues := anaRow, changedKeys := [] }
      (JVal.str "secret1") = Except.ok true ∧
    Usuario.compararPassword demoEnv { dataValues := anaRow, changedKeys := [] }
      (JVal.str "wrong") = Except.ok false :=
  ⟨(compararPassword_after_create demoEnv (by intro c p; simp [demoEnv]) [] [anaRow]
      (createArgs anaBody) { dataValues := anaRow, changedKeys := [] } "secret1" create_ana
      (by decide)).1,
   (compararPassword_after_create demoEnv (by intro c p; simp [demoEnv]) [] [anaRow]
      (createArgs anaBody) { dataValues := anaRow, changedKeys := [] } "secret1" create_ana
      (by decide)).2.2.2 (by decide)⟩

/-! ### The unique index on `email` -/

theorem beforeCreate_get_ne (E : Env) (u hashed : Usuario) (k : String)
    (h : beforeCreate E u = Except.ok hashed) (hk : k ≠ "password") :
    hashed.get k = u.get k := by
  unfold beforeCreate at h
  by_cases hc : (u.get "password").truthy = true
  · rw [if_pos hc] at h
    cases hb : bcryptHash E (u.get "password") 12 with
    | error e => rw [hb] at h; simp at h
    | ok hsh =>
      rw [hb] at h
      simp only [Except.ok.injEq] at h
      rw [← h]
      exact Usuario.attr_set_ne _ _ _ _ hk
  · rw [if_neg hc] at h
    simp only [Except.ok.injEq] at h
    rw [← h]

theorem insertRow_email (E : Env) (values : Obj) (hashed : Usuario)
    (hb : beforeCreate E (build values) = Except.ok hashed) :
    (insertRow E hashed).get "email" = values.get "email" := by
  rw [insertRow_get E hashed "email" (by decide) (by decide) (by decide),
    beforeCreate_get_ne E _ _ "email" hb (by decide), build_get_email]

theorem emailTaken_false_iff (store : Store) (email : JVal) :
    emailTaken store email = false ↔ email ∉ emails store := by
  simp [emailTaken, emails]

/-- A call of `create` that does not reject appends one row whose email is
the supplied one and was not in the table. -/
theorem create_ok_email (E : Env) (store store1 : Store) (values : Obj) (u : Usuario)
    (h : Usuario.create E store values = Except.ok (u, store1)) :
    values.get "email" ∉ emails store ∧
      emails store1 = emails store ++ [values.get "email"] := by
  obtain ⟨_, hashed, hb, ht, _, hs⟩ := create_ok_inv E store store1 values u h
  have he := insertRow_email E values hashed hb
  rw [he] at ht
  refine ⟨(emailTaken_false_iff _ _).1 ht, ?_⟩
  rw [hs]
  simp [emails, he]

/-- C5 as stated fails: after the scenario user is stored, a second call
with the same email and a one-letter nombre rejects with the validation
error of `nombre`, not with the duplicate-email error. -/
theorem duplicate_email_second_call_validation_error :
    (createArgs anaBody).get "email"
      = Obj.get [("nombre", JVal.str "A"), ("email", JVal.str "ana@x.com"),
          ("password", JVal.str "secret1")] "email" ∧
    Usuario.create demoEnv [] (createArgs anaBody)
      = Except.ok ({ dataValues := anaRow, changedKeys := [] }, [anaRow]) ∧
    Usuario.create demoEnv [anaRow]
        [("nombre", JVal.str "A"), ("email", JVal.str "ana@x.com"),
         ("password", JVal.str "secret1")]
      = Except.error (SequelizeError.validation
          [validatorItem "nombre" "El nombre debe tener entre 2 y 100 caracteres"]) ∧
    Usuario.create demoEnv [anaRow]
        [("nombre", JVal.str "A"), ("email", JVal.str "ana@x.com"),
         ("password", JVal.str "secret1")]
      ≠ Except.error (SequelizeError.uniqueConstraint "Este email ya está registrado") := by
  refine ⟨rfl, rfl, rfl, ?_⟩
  intro h
  have h2 : Usuario.create demoEnv [anaRow]
        [("nombre", JVal.str "A"), ("email", JVal.str "ana@x.com"),
         ("password", JVal.str "secret1")]
      = Except.error (SequelizeError.validation
          [validatorItem "nombre" "El nombre debe tener entre 2 y 100 caracteres"]) := rfl
  rw [h2] at h
  cases h

/-- C5, amended: when a call of `create` succeeds, any later call on the
resulting table that carries the same email value rejects and leaves the
table as it was; it rejects with the duplicate-email error whenever it
passes validation and the hook; the table holds exactly one row with that
email; and every call of `create`, succeeding or not, keeps the emails of the
table pairwise distinct. -/
theorem duplicate_email_rejected (E E2 : Env) (store store1 : Store) (v1 v2 : Obj)
    (u : Usuario) (hemail : v2.get "email" = v1.get "email")
    (h1 : Usuario.create E store v1 = Except.ok (u, store1)) :
    (∃ e, Usuario.create E2 store1 v2 = Except.error e ∧
      ((validate E2 (build v2) = [] ∧ ∃ hashed, beforeCreate E2 (build v2) = Except.ok hashed) →
        e = SequelizeError.uniqueConstraint "Este email ya está registrado")) ∧
    tableAfter store1 (Usuario.create E2 store1 v2) = store1 ∧
    (rowsWithEmail store1 (v1.get "email")).length = 1 ∧
    (∀ (E0 : Env) (st : Store) (vals : Obj), (emails st).Nodup →
      (emails (tableAfter st (Usuario.create E0 st vals))).Nodup) := by
  obtain ⟨hnot, hem⟩ := create_ok_email E store store1 v1 u h1
  have htaken : ∀ hashed, beforeCreate E2 (build v2) = Except.ok hashed →
      emailTaken store1 ((insertRow E2 hashed).get "email") = true := by
    intro hashed hb
    rw [insertRow_email E2 v2 hashed hb, hemail]
    cases ht : emailTaken store1 (v1.get "email")
    · rw [emailTaken_false_iff, hem] at ht
      exact absurd (by simp) ht
    · rfl
  have hsecond : ∃ e, Usuario.create E2 store1 v2 = Except.error e ∧
      ((validate E2 (build v2) = [] ∧ ∃ hashed, beforeCreate E2 (build v2) = Except.ok hashed) →
        e = SequelizeError.uniqueConstraint "Este email ya está registrado") := by
    unfold Usuario.create
    simp only
    cases hv : validate E2 (build v2) with
    | cons item items =>
      exact ⟨_, rfl, fun hc => by simp at hc⟩
    | nil =>
      simp only
      cases hb : beforeCreate E2 (build v2) with
      | error e =>
        exact ⟨_, rfl, fun hc => by simp at hc⟩
      | ok hashed =>
        simp only
        rw [if_pos (htaken hashed hb)]
        exact ⟨_, rfl, fun _ => rfl⟩
  refine ⟨hsecond, ?_, ?_, ?_⟩
  · obtain ⟨e, he, _⟩ := hsecond
    rw [he]
    rfl
  · obtain ⟨_, hashed, hb, _, _, hs⟩ := create_ok_inv E store store1 v1 u h1
    have he := insertRow_email E v1 hashed hb
    have hnone : rowsWithEmail store (v1.get "email") = [] := by
      simp only [rowsWithEmail, List.filter_eq_nil_iff, decide_eq_true_eq]
      intro r hr heq
      exact hnot (by simp only [emails, List.mem_map]; exact ⟨r, hr, heq⟩)
    rw [hs]
    simp only [rowsWithEmail] at hnone ⊢
    rw [List.filter_append, hnone]
    simp [he]
  · intro E0 st vals hnd
    cases hc : Usuario.create E0 st vals with
    | error e => exact hnd
    | ok r =>
      obtain ⟨u0, st1⟩ := r
      obtain ⟨hn0, he0⟩ := create_ok_email E0 st st1 vals u0 hc
      show (emails st1).Nodup
      rw [he0]
      exact List.Nodup.append hnd (List.nodup_singleton _) (by simpa using hn0)

/-- Worked instance of C5 as amended: the scenario request sent twice. -/
theorem duplicate_email_rejected_witness :
    Usuario.create demoEnv [anaRow] (createArgs anaBody)
      = Except.error (SequelizeError.uniqueConstraint "Este email ya está registrado") ∧
    (∃ e, Usuario.create demoEnv [anaRow] (createArgs anaBody) = Except.error e ∧
      ((validate demoEnv (build (createArgs anaBody)) = [] ∧
          ∃ hashed, beforeCreate demoEnv (build (createArgs anaBody)) = Except.ok hashed) →
        e = SequelizeError.uniqueConstraint "Este email ya está registrado")) ∧
    tableAfter [anaRow] (Usuario.create demoEnv [anaRow] (createArgs anaBody)) = [anaRow] ∧
    (rowsWithEmail [anaRow] ((createArgs anaBody).get "email")).length = 1 ∧
    (∀ (E0 : Env) (st : Store) (vals : Obj), (emails st).Nodup →
      (emails (tableAfter st (Usuario.create E0 st vals))).Nodup) :=
  ⟨rfl, duplicate_email_rejected demoEnv demoEnv [] [anaRow] (createArgs anaBody)
    (createArgs anaBody) { dataValues := anaRow, changedKeys := [] } rfl create_ana⟩

/-! ### The handlers -/

theorem Obj.mem_keys_of_get (o : Obj) (k : String) (h : o.get k ≠ JVal.undefined) :
    k ∈ o.keys := by
  induction o with
  | nil => simp [Obj.get, List.lookup] at h
  | cons hd tl ih =>
    obtain ⟨k0, v0⟩ := hd
    by_cases hk : k = k0
    · simp [Obj.keys, hk]
    · have h2 : (k == k0) = false := by simp [hk]
      simp only [Obj.get, List.lookup, h2] at h ih
      simp only [Obj.keys, List.map_cons, List.mem_cons] at ih ⊢
      exact Or.inr (ih h)

theorem stringifyObj_get (o : Obj) (k : String) (h : o.get k ≠ JVal.undefined) :
    (stringifyObj o).get k = o.get k := by
  induction o with
  | nil => rfl
  | cons hd tl ih =>
    obtain ⟨k0, v0⟩ := hd
    by_cases hk : k = k0
    · subst hk
      have hv : v0 ≠ JVal.undefined := by simpa [Obj.get, List.lookup] using h
      simp [stringifyObj, Obj.get, List.lookup, List.filter, hv]
    · have h2 : (k == k0) = false := by simp [hk]
      simp only [Obj.get, List.lookup, h2] at h ih ⊢
      by_cases hv : v0 = JVal.undefined
      · simp only [stringifyObj, List.filter, hv, ne_eq, not_true_eq_false, decide_False] at ih ⊢
        exact ih h
      · simp only [stringifyObj, List.filter, hv, ne_eq, not_false_eq_true, decide_True,
          List.lookup, h2] at ih ⊢
        exact ih h

theorem createArgs_get_password (body : Obj) :
    (createArgs body).get "password" = body.get "password" := by
  simp [createArgs, Obj.get, List.lookup]

/-- C3 on the code: whenever `Usuario.create` succeeds, the handler answers
201 and the `usuario` object of the body is the serialised `toJSON()` of the
created record, not its `toSafeJSON()`: it has a key `password`, holding the
cost-12 hash of the password of the request. -/
theorem postTestUsuarios_sends_password (E : Env) (store store1 : Store) (body : Obj)
    (u : Usuario) (h : Usuario.create E store (createArgs body) = Except.ok (u, store1)) :
    (postTestUsuarios E store body).1.status = 201 ∧
    (postTestUsuarios E store body).1.field "usuario" = some (Json.obj (stringifyObj u.toJSON)) ∧
    "password" ∈ (stringifyObj u.toJSON).keys ∧
    (∃ raw, body.get "password" = JVal.str raw ∧
      (stringifyObj u.toJSON).get "password" = JVal.str (E.hash raw 12 E.salt)) ∧
    stringifyObj u.toJSON ≠ stringifyObj u.toSafeJSON := by
  obtain ⟨raw, hraw, _, hget, _, _⟩ :=
    (beforeCreate_hash_of_create E store store1 (createArgs body) u h)
  have hdef : (u.toJSON).get "password" ≠ JVal.undefined := by
    show u.get "password" ≠ JVal.undefined
    rw [hget]; simp
  have hs : (stringifyObj u.toJSON).get "password" = JVal.str (E.hash raw 12 E.salt) := by
    rw [stringifyObj_get _ _ hdef]; exact hget
  have hmem : "password" ∈ (stringifyObj u.toJSON).keys :=
    Obj.mem_keys_of_get _ _ (by rw [hs]; simp)
  refine ⟨?_, ?_, hmem, ⟨raw, ?_, hs⟩, ?_⟩
  · simp [postTestUsuarios, h, sendJson]
  · simp [postTestUsuarios, h, sendJson, Response.field, List.lookup, List.filter]
  · rw [← createArgs_get_password, hraw]
  · intro heq
    rw [heq] at hmem
    simp [stringifyObj, Usuario.toSafeJSON, Obj.rest, Obj.keys, List.mem_filter] at hmem

/-- C3 at the scenario request: the 201 body carries the password hash. -/
theorem postTestUsuarios_sends_password_witness :
    (postTestUsuarios demoEnv [] anaBody).1.status = 201 ∧
    (postTestUsuarios demoEnv [] anaBody).1.field "usuario" = some (Json.obj anaRow) ∧
    "password" ∈ Obj.keys anaRow ∧
    Obj.get anaRow "password" = JVal.str "$2a$12$secret1" := by
  have h := postTestUsuarios_sends_password demoEnv [] [anaRow] anaBody
    { dataValues := anaRow, changedKeys := [] } create_ana
  exact ⟨h.1, h.2.1, h.2.2.1, rfl⟩

/-- C8 on the code: for every request body the handler passes the literal
`user` as `rol`, whatever the body says, and `user` is not a value of the
declared enumeration; the built instance carries it unchanged. -/
theorem createArgs_rol_hardcoded (body : Obj) :
    (createArgs body).get "rol" = JVal.str "user" ∧
    "user" ∉ rolValues ∧
    (build (createArgs body)).get "rol" = JVal.str "user" ∧
    (createArgs (body.set "rol" (JVal.str "admin"))).get "rol" ≠ JVal.str "admin" := by
  refine ⟨?_, by decide, ?_, ?_⟩
  · simp [createArgs, Obj.get, List.lookup]
  · simp [build, initial, createArgs, Usuario.get, Obj.get, List.lookup]
  · simp [createArgs, Obj.get, List.lookup]

/-- C9 on the code: the catch-all is registered before the user-creation
route, so every POST request, to `/api/test-usuarios` or to any other
path, is answered by the catch-all with 404 and leaves the table untouched,
although the user-creation route is registered and accepts the request; no
request at all is answered by the user-creation handler. -/
theorem post_answered_by_catch_all (E : Env) (w : World) (path : String) (body : Obj) :
    serve E w { method := "POST", path := "/api/test-usuarios", body := body }
      = some (Handler.notFound, catchAll, w) ∧
    serve E w { method := "POST", path := path, body := body }
      = some (Handler.notFound, catchAll, w) ∧
    catchAll.status = 404 ∧
    Layer.route "POST" "/api/test-usuarios" Handler.testUsuarios ∈ app ∧
    (Layer.route "POST" "/api/test-usuarios" Handler.testUsuarios).accepts
      { method := "POST", path := "/api/test-usuarios", body := body } = true ∧
    (∀ req r, serve E w req = some r → r.1 ≠ Handler.testUsuarios) := by
  refine ⟨?_, ?_, rfl, by simp [app], by simp [Layer.accepts], ?_⟩
  · simp [serve, app, dispatch, Layer.accepts, runHandler, Layer.handler]
  · simp [serve, app, dispatch, Layer.accepts, runHandler, Layer.handler]
  · intro req r h
    simp only [serve, app, dispatch, Layer.accepts, runHandler, Layer.handler] at h
    split_ifs at h <;> simp at h <;> rw [← h] <;> simp

/-- C10 on the code: `testConnection` catches the error of `authenticate`
itself and resolves, so the handler answers the 200 success payload for every
outcome of `authenticate`; when it fails with `e`, the response is still 200
without an `error` field and `e` only reaches the console. -/
theorem testmysql_always_200 (E : Env) (dbName : JVal) (e : String)
    (auth : Except String Unit) :
    (testConnection auth).2 = Except.ok JVal.undefined ∧
    (getTestmysql E dbName auth).1.status = 200 ∧
    (getTestmysql E dbName (Except.error e)).1 =
      sendJson 200
        [("status", Json.val (JVal.num 200)),
         ("message", Json.val (JVal.str "Conexión a la base de datos establecida correctamente.")),
         ("database", Json.val dbName),
         ("timestamp", Json.val (JVal.str E.now))] ∧
    (getTestmysql E dbName (Except.error e)).1.field "error" = none ∧
    (getTestmysql E dbName (Except.error e)).2
      = ["No se pudo conectar a la base de datos: " ++ e] := by
  refine ⟨?_, ?_, ?_, ?_, ?_⟩
  · cases auth <;> rfl
  · cases auth <;> rfl
  · rfl
  · by_cases hd : dbName = JVal.undefined
    · subst hd; rfl
    · simp [getTestmysql, testConnection, sendJson, Response.field, List.filter, List.lookup, hd]
  · rfl

end Biblioteca
